import Mathlib

/-!
Verification development for a small Flask chat-proxy service (`app.py`).

The service keeps an in-memory session store (token → session record),
builds a system prompt from optional personalization fields, and exposes
four HTTP handlers: health, start, chat and reset.  The outbound
completion call is an opaque external collaborator; its outcome is a
parameter of the embedded `chat` handler.

Modelling conventions:
  * JSON request values are the inductive `JValue`; Python truthiness,
    `str()` rendering and `float()`/`int()` convertibility are embedded
    explicitly.
  * Python `str.strip` / `str.rstrip` / `str.split()` / `str.lower` are
    embedded over `List Char` (`pyStrip`, `pyRstrip`, `pySplit`,
    `pyLower`) for the ASCII whitespace classes the service encounters.
  * Machine floats never flow into any observed behaviour: a numeric
    parameter is only forwarded to the opaque gateway, so JSON numbers
    are carried as `Int` and only their convertibility matters.
  * An unhandled Python exception inside a handler (surfaced by Flask as
    a 500 response) is modelled as `Except.error ()`.
-/

set_option autoImplicit false

namespace ChatProxy

/-- A JSON value as delivered by `request.get_json`. -/
inductive JValue where
  | null
  | bool (b : Bool)
  | num (n : Int)
  | str (s : String)
  | arr (xs : List JValue)
  | obj (fields : List (String × JValue))

/-- Python truthiness of a JSON value (`if x:`). -/
def truthy : JValue → Bool
  | JValue.null => false
  | JValue.bool b => b
  | JValue.num n => n != 0
  | JValue.str s => s != ""
  | JValue.arr xs => !xs.isEmpty
  | JValue.obj fs => !fs.isEmpty

/-- ASCII whitespace as recognised by Python string methods. -/
def pyIsSpace (c : Char) : Bool :=
  c == ' ' || c == '\t' || c == '\n' || c == '\r' || c == '\x0b' || c == '\x0c'

/-- Drop leading whitespace characters. -/
def stripLeftL (l : List Char) : List Char := l.dropWhile pyIsSpace

/-- Drop trailing whitespace characters. -/
def stripRightL (l : List Char) : List Char := (l.reverse.dropWhile pyIsSpace).reverse

/-- Python `str.strip()`. -/
def pyStrip (s : String) : String := ⟨stripRightL (stripLeftL s.data)⟩

/-- Python `str.rstrip()`. -/
def pyRstrip (s : String) : String := ⟨stripRightL s.data⟩

/-- Python `str.lower()` (ASCII case folding suffices here). -/
def pyLower (s : String) : String := ⟨s.data.map Char.toLower⟩

/-- Helper for Python `str.split()`: accumulate the current word (reversed). -/
def pySplitAux : List Char → List Char → List (List Char)
  | [], acc => if acc.isEmpty then [] else [acc.reverse]
  | c :: r, acc =>
    if pyIsSpace c then
      if acc.isEmpty then pySplitAux r [] else acc.reverse :: pySplitAux r []
    else pySplitAux r (c :: acc)

/-- Python `str.split()` with no arguments: split on whitespace runs,
no empty parts. -/
def pySplit (s : String) : List String := (pySplitAux s.data []).map (fun l => ⟨l⟩)

/-- The single-quote character, written via its code point. -/
def squote : String := String.singleton (Char.ofNat 39)

mutual

/-- Python `repr()` of a JSON value (used inside containers). -/
def pyRepr : JValue → String
  | JValue.null => "None"
  | JValue.bool b => if b then "True" else "False"
  | JValue.num n => toString n
  | JValue.str s => squote ++ s ++ squote
  | JValue.arr xs => "[" ++ String.intercalate ", " (pyReprList xs) ++ "]"
  | JValue.obj fs => "\x7b" ++ String.intercalate ", " (pyReprObj fs) ++ "\x7d"

/-- `repr` of each element of a JSON array. -/
def pyReprList : List JValue → List String
  | [] => []
  | v :: r => pyRepr v :: pyReprList r

/-- `repr` of each entry of a JSON object. -/
def pyReprObj : List (String × JValue) → List String
  | [] => []
  | (k, v) :: r => (squote ++ k ++ squote ++ ": " ++ pyRepr v) :: pyReprObj r

end

/-- Python `str()` of a JSON value, as used by an f-string. -/
def pyStr : JValue → String
  | JValue.str s => s
  | v => pyRepr v

/-- Nonempty decimal digit run, `_` allowed strictly between digits
(Python numeric literal grouping): continuation after the first digit. -/
def digitsUAux : List Char → Bool
  | [] => true
  | '_' :: c :: r => c.isDigit && digitsUAux r
  | c :: r => c.isDigit && digitsUAux r

/-- Nonempty decimal digit run with optional grouping underscores. -/
def digitsU : List Char → Bool
  | [] => false
  | c :: r => c.isDigit && digitsUAux r

/-- Drop one leading sign character if present. -/
def dropSign : List Char → List Char
  | '+' :: r => r
  | '-' :: r => r
  | l => l

/-- Split a list at the first element satisfying `p`, dropping it. -/
def splitAtFirst (p : Char → Bool) : List Char → Option (List Char × List Char)
  | [] => none
  | c :: r =>
    if p c then some ([], r)
    else match splitAtFirst p r with
      | some (a, b) => some (c :: a, b)
      | none => none

/-- Mantissa of a Python float literal: `d+ | d+. | d+.d+ | .d+`. -/
def mantissaOk (l : List Char) : Bool :=
  match l.splitOnP (fun c => c == '.') with
  | [a] => digitsU a
  | [a, b] => (digitsU a && (b.isEmpty || digitsU b)) || (a.isEmpty && digitsU b)
  | _ => false

/-- Exponent part of a Python float literal (after the `e`). -/
def expOk (l : List Char) : Bool := digitsU (dropSign l)

/-- Body of a Python float literal after sign removal and lowercasing. -/
def floatBody (l : List Char) : Bool :=
  if l == "inf".data || l == "infinity".data || l == "nan".data then true
  else match splitAtFirst (fun c => c == 'e') l with
    | none => mantissaOk l
    | some (m, e) => mantissaOk m && expOk e

/-- Does Python `float(s)` succeed on the string `s`? -/
def pyFloatStrOk (s : String) : Bool :=
  floatBody (dropSign ((stripRightL (stripLeftL s.data)).map Char.toLower))

/-- Does Python `int(s)` succeed on the string `s` (base 10)? -/
def pyIntStrOk (s : String) : Bool :=
  digitsU (dropSign (stripRightL (stripLeftL s.data)))

/-- Does Python `float(v)` succeed on the JSON value `v`?  Numbers and
booleans convert; strings convert when they spell a float literal;
`None`, arrays and objects raise. -/
def pyFloatOk : JValue → Bool
  | JValue.num _ => true
  | JValue.bool _ => true
  | JValue.str s => pyFloatStrOk s
  | _ => false

/-- Does Python `int(v)` succeed on the JSON value `v`? -/
def pyIntOk : JValue → Bool
  | JValue.num _ => true
  | JValue.bool _ => true
  | JValue.str s => pyIntStrOk s
  | _ => false

/-! ## Data model (`user_sessions` record shapes) -/

/-- One conversation turn: a role/content pair. -/
structure Turn where
  role : String
  content : String
deriving DecidableEq, Repr

/-- The `meta` record stored at session creation.  The handlers store
either `None` or a nonempty stripped string in the first three fields;
`initialMessage` is always a nonempty string after defaulting. -/
structure Meta where
  userName : Option String
  cohortId : Option String
  systemPrompt : Option String
  initialMessage : String
deriving DecidableEq, Repr

/-- A session record: ordered turn history plus creation-time settings.
The two numeric defaults come from environment configuration already
parsed at startup; their magnitudes are only forwarded to the opaque
completion gateway, so they are carried as `Int`. -/
structure Session where
  messages : List Turn
  meta : Meta
  model : String
  default_temperature : Int
  default_max_completion_tokens : Int
deriving DecidableEq, Repr

/-- The process-wide `user_sessions` dict, in insertion order. -/
abbrev Store := List (String × Session)

/-- Dict lookup (`token in user_sessions` / `user_sessions[token]`). -/
def storeGet : Store → String → Option Session
  | [], _ => none
  | (k, s) :: r, t => if k = t then some s else storeGet r t

/-- Dict assignment `user_sessions[token] = sess`: replaces in place,
appends when the key is new (Python dict insertion order). -/
def storeSet : Store → String → Session → Store
  | [], t, s => [(t, s)]
  | (k, v) :: r, t, s => if k = t then (k, s) :: r else (k, v) :: storeSet r t s

/-- `payload.get(k)`: `none` both for an absent key and models the JSON
dict; a stored JSON `null` is returned as `some JValue.null`. -/
def dictGet : List (String × JValue) → String → Option JValue
  | [], _ => none
  | (k, v) :: r, t => if k = t then some v else dictGet r t

/-! ## Helpers from `app.py` -/

/-- The fixed default course-assistant instruction template
(`BASE_SYSTEM_PROMPT` in `app.py`). -/
def BASE_SYSTEM_PROMPT : String :=
  "You are McAllister and you are a guide for a course in organizational leadership, data and AI. " ++
  "You are not a model, but a course copilot at McMaster University. The title of the course is Data Science, " ++
  "Applied AI, and Organizational Leadership. This program is offered as a Graduate Academic Certificate and is for " ++
  "credit at the DeGroote School of Business at McMaster University in Canada. You blend cutting-edge Data Science, " ++
  "Analytics, AI, Strategy, Leadership and Organizational development to help professionals from any sphere. " ++
  "Answer with concrete examples drawn from business cases. The audience is professionals, leaders and strategists " ++
  "leveraging AI to improve their organizations."

/-- `extract_token`: accepts either a raw token or `Bearer <token>`.
`if not auth_header` catches both a missing and an empty header. -/
def extract_token (auth_header : Option String) : Option String :=
  match auth_header with
  | none => none
  | some h =>
    if h = "" then none
    else
      match pySplit h with
      | [t] => some t
      | [b, t] => if pyLower b = "bearer" then some t else none
      | _ => none

/-- `build_system_prompt`: the client override (stripped) or the base
prompt, optionally enriched with personalization lines. -/
def build_system_prompt (system_prompt_from_client : Option String) (meta : Meta) : String :=
  let base :=
    if pyStrip (system_prompt_from_client.getD "") = "" then BASE_SYSTEM_PROMPT
    else pyStrip (system_prompt_from_client.getD "")
  let user_name := pyStrip (meta.userName.getD "")
  let cohort_id := pyStrip (meta.cohortId.getD "")
  let extras :=
    (if user_name ≠ "" then
        ["Learner name: " ++ user_name ++ ". Address them by name when natural."]
      else []) ++
    (if cohort_id ≠ "" then ["Learner cohort: " ++ cohort_id ++ "."] else [])
  if extras ≠ [] then pyRstrip base ++ "\n\n" ++ String.intercalate "\n" extras
  else base

/-! ## `/api/start` -/

/-- The default welcome message (byte-for-byte the literal in `app.py`,
including its mojibake apostrophe). -/
def DEFAULT_INITIAL_MESSAGE : String :=
  "Hi, Iâ€™m McAllister, your copilot and guide through the Data Science, Applied AI and Organizational Leadership program at DeGroote."

/-- `(payload.get(k) or "").strip() or None` on a JSON payload value.
A truthy non-string has no `.strip` attribute: the handler raises
(`Except.error`), which Flask surfaces as a 500 response. -/
def normField : Option JValue → Except Unit (Option String)
  | none => Except.ok none
  | some v =>
    if truthy v then
      match v with
      | JValue.str s =>
        Except.ok (if pyStrip s = "" then none else some (pyStrip s))
      | _ => Except.error ()
    else Except.ok none

/-- The response body of `/api/start`. -/
structure StartOut where
  token : String
  initialMessage : String
deriving DecidableEq, Repr

/-- `start_session`.  `payload` is the merged JSON-body/query-parameter
dict (on the GET path every value is a `JValue.str`); `token` is the
value drawn by `generate_session_token` (`secrets.token_hex(32)`), and
`model`, `dtemp`, `dmct` are the environment-derived settings. -/
def start_session (payload : List (String × JValue)) (token : String)
    (model : String) (dtemp dmct : Int) (store : Store) :
    Except Unit (StartOut × Store) := do
  let user_name ← normField (dictGet payload "userName")
  let cohort_id ← normField (dictGet payload "cohortId")
  let system_prompt_from_client ← normField (dictGet payload "systemPrompt")
  let im0 ← normField (dictGet payload "initialMessage")
  let initial_message := im0.getD DEFAULT_INITIAL_MESSAGE
  let meta : Meta := ⟨user_name, cohort_id, system_prompt_from_client, initial_message⟩
  let system_prompt := build_system_prompt system_prompt_from_client meta
  let sess : Session := ⟨[⟨"system", system_prompt⟩], meta, model, dtemp, dmct⟩
  Except.ok (⟨token, initial_message⟩, storeSet store token sess)

/-! ## `/api/chat` -/

/-- The result of one `/api/chat` call: HTTP status, the `response`
field on success, the `error` field on failure, the store after the
call, and whether the completion gateway was actually invoked. -/
structure ChatOut where
  status : Nat
  response : Option String
  error : Option String
  store : Store
  gatewayCalled : Bool
deriving DecidableEq, Repr

/-- The transient-context system turn appended by `chat` when the
`context` value is truthy (`if per_request_context:`). -/
def contextTurns (data : List (String × JValue)) : List Turn :=
  match dictGet data "context" with
  | some v =>
    if truthy v then [⟨"system", "Context for this turn: " ++ pyStr v⟩] else []
  | none => []

/-- The body of `chat` after token and message validation.  Python
evaluates `float(temperature)` and then `int(max_completion_tokens)`
while building the `create(...)` call, so a conversion failure raises
inside the `try` block before the gateway is invoked; `gw` is the
outcome of the opaque gateway call when it is reached (`none` models an
upstream exception). -/
def chatCore (store : Store) (token : String) (sess : Session)
    (data : List (String × JValue)) (user_message : String)
    (gw : Option String) : ChatOut :=
  let temperature := (dictGet data "temperature").getD (JValue.num sess.default_temperature)
  let max_completion_tokens :=
    (dictGet data "max_completion_tokens").getD (JValue.num sess.default_max_completion_tokens)
  let msgs1 := sess.messages ++ contextTurns data ++ [⟨"user", user_message⟩]
  let store1 := storeSet store token { sess with messages := msgs1 }
  if pyFloatOk temperature then
    if pyIntOk max_completion_tokens then
      match gw with
      | some response_text =>
        let msgs2 := msgs1 ++ [⟨"assistant", response_text⟩]
        ⟨200, some response_text, none,
          storeSet store1 token { sess with messages := msgs2 }, true⟩
      | none => ⟨500, none, some "Sorry, I encountered an error.", store1, true⟩
    else ⟨500, none, some "Sorry, I encountered an error.", store1, false⟩
  else ⟨500, none, some "Sorry, I encountered an error.", store1, false⟩

/-- `chat`: token check, JSON-body check, message validation, optional
context injection, user append, gateway call, assistant append. -/
def chat (store : Store) (auth_header : Option String) (is_json : Bool)
    (data : List (String × JValue)) (gw : Option String) : ChatOut :=
  match extract_token auth_header with
  | none => ⟨401, none, some "Invalid session token", store, false⟩
  | some token =>
    match storeGet store token with
    | none => ⟨401, none, some "Invalid session token", store, false⟩
    | some sess =>
      if is_json = false then ⟨400, none, some "Expected JSON body", store, false⟩
      else
        match dictGet data "message" with
        | some (JValue.str s) =>
          if s = "" then
            ⟨400, none, some ("Missing " ++ squote ++ "message" ++ squote), store, false⟩
          else chatCore store token sess data s gw
        | _ => ⟨400, none, some ("Missing " ++ squote ++ "message" ++ squote), store, false⟩

/-! ## `/api/reset` -/

/-- The result of one `/api/reset` call. -/
structure ResetOut where
  status : Nat
  ok : Bool
  error : Option String
  store : Store
deriving DecidableEq, Repr

/-- `reset_session`: same 401 policy as `chat`; rebuilds the system
prompt from the stored meta and truncates the history to it. -/
def reset_session (store : Store) (auth_header : Option String) : ResetOut :=
  match extract_token auth_header with
  | none => ⟨401, false, some "Invalid session token", store⟩
  | some token =>
    match storeGet store token with
    | none => ⟨401, false, some "Invalid session token", store⟩
    | some sess =>
      let system_prompt := build_system_prompt sess.meta.systemPrompt sess.meta
      ⟨200, true, none,
        storeSet store token { sess with messages := [⟨"system", system_prompt⟩] }⟩

/-! ## Spec-side comparator definitions

These definitions follow the wording of the specification claims, to be
compared with the source embeddings above. -/

/-- Spec wording: the trimmed client override when present and nonempty
after trimming, otherwise the fixed default instruction template. -/
def specBase (clientOverride : Option String) : String :=
  match clientOverride with
  | some s => if pyStrip s = "" then BASE_SYSTEM_PROMPT else pyStrip s
  | none => BASE_SYSTEM_PROMPT

/-- Spec wording: one line per extra, in (name, cohort) order. -/
def specExtras (m : Meta) : List String :=
  (if pyStrip (m.userName.getD "") ≠ "" then
      ["Learner name: " ++ pyStrip (m.userName.getD "") ++ ". Address them by name when natural."]
    else []) ++
  (if pyStrip (m.cohortId.getD "") ≠ "" then
      ["Learner cohort: " ++ pyStrip (m.cohortId.getD "") ++ "."]
    else [])

/-- Spec wording for the built system prompt: the base, then (when any
extra exists) a blank line and the extras one per line. -/
def buildPromptSpec (clientOverride : Option String) (m : Meta) : String :=
  if specExtras m = [] then specBase clientOverride
  else specBase clientOverride ++ "\n\n" ++ String.intercalate "\n" (specExtras m)

/-- Claim wording for token extraction: a single whitespace-delimited
part is the token; exactly two parts whose first compares
case-insensitively equal to "bearer" yield the second; otherwise none. -/
def specExtract (auth_header : Option String) : Option String :=
  match auth_header with
  | none => none
  | some h =>
    match pySplit h with
    | [t] => some t
    | [b, t] => if pyLower b = "bearer" then some t else none
    | _ => none

/-- Spec wording for start-field normalization: empty or
whitespace-only strings become absent, other strings are stripped. -/
def pyNorm : Option JValue → Option String
  | some (JValue.str s) => if pyStrip s = "" then none else some (pyStrip s)
  | _ => none

/-- Payload values on which `(v or "").strip()` does not raise:
strings, and falsy values of any type. -/
def strOrFalsy : JValue → Bool
  | JValue.str _ => true
  | v => !truthy v

/-- The `message` validation of `chat`: a nonempty string. -/
def msgValid : Option JValue → Bool
  | some (JValue.str s) => s != ""
  | _ => false

/-- One `/api/chat` request on a fixed token: its JSON body and the
outcome of the gateway call it triggers. -/
structure ChatCall where
  data : List (String × JValue)
  gw : Option String

/-- Run a sequence of chat calls on one Authorization header, returning
the final store and the list of response statuses. -/
def runChats : Store → Option String → List ChatCall → Store × List Nat
  | st, _, [] => (st, [])
  | st, auth, c :: r =>
    let o := chat st auth true c.data c.gw
    let rest := runChats o.store auth r
    (rest.1, o.status :: rest.2)

/-- The message string of a call (meaningful when `msgValid` holds). -/
def msgStr (c : ChatCall) : String :=
  match dictGet c.data "message" with
  | some (JValue.str s) => s
  | _ => ""

/-- The gateway reply of a call (meaningful when the gateway succeeds). -/
def gwStr (c : ChatCall) : String := c.gw.getD ""

/-- A chat call that succeeds on a live session with the given numeric
defaults and injects no context turn: valid message, falsy/absent
context, convertible parameters, gateway reply present. -/
def callOk (dtemp dmct : Int) (c : ChatCall) : Bool :=
  msgValid (dictGet c.data "message") &&
  (contextTurns c.data).isEmpty &&
  pyFloatOk ((dictGet c.data "temperature").getD (JValue.num dtemp)) &&
  pyIntOk ((dictGet c.data "max_completion_tokens").getD (JValue.num dmct)) &&
  c.gw.isSome

/-- The user/assistant pair a successful context-free call appends. -/
def callPair (c : ChatCall) : List Turn :=
  [⟨"user", msgStr c⟩, ⟨"assistant", gwStr c⟩]

/-- A small concrete session used by concrete evaluations. -/
def sess0 : Session := ⟨[⟨"system", "p"⟩], ⟨none, none, none, "hi"⟩, "m", 0, 512⟩

/-- A store holding `sess0` under token "tok". -/
def store0 : Store := [("tok", sess0)]

/-- A concrete session with accumulated history and personalization. -/
def sessH : Session :=
  ⟨[⟨"system", "p"⟩, ⟨"user", "u"⟩, ⟨"assistant", "a"⟩],
    ⟨some "Sam", none, some "OV", "hi"⟩, "m", 0, 512⟩

/-- A store holding `sessH` under token "tok". -/
def storeH : Store := [("tok", sessH)]

/-! ## Helper lemmas -/

theorem stripRightL_idem (l : List Char) :
    stripRightL (stripRightL l) = stripRightL l := by
  simp [stripRightL, List.dropWhile_idempotent]

theorem pyRstrip_pyStrip (s : String) : pyRstrip (pyStrip s) = pyStrip s := by
  show (⟨stripRightL (stripRightL (stripLeftL s.data))⟩ : String) = _
  rw [stripRightL_idem]
  rfl

set_option maxRecDepth 8192 in
theorem pyRstrip_base : pyRstrip BASE_SYSTEM_PROMPT = BASE_SYSTEM_PROMPT := by decide

theorem pyRstrip_specBase (o : Option String) :
    pyRstrip (specBase o) = specBase o := by
  cases o with
  | none => exact pyRstrip_base
  | some s =>
    by_cases h : pyStrip s = "" <;> simp [specBase, h, pyRstrip_base, pyRstrip_pyStrip]

theorem storeGet_storeSet_self (st : Store) (k : String) (s : Session) :
    storeGet (storeSet st k s) k = some s := by
  induction st with
  | nil => simp [storeSet, storeGet]
  | cons p r ih =>
    obtain ⟨k2, v⟩ := p
    by_cases h : k2 = k <;> simp [storeSet, storeGet, h, ih]

theorem storeSet_storeSet (st : Store) (k : String) (a b : Session) :
    storeSet (storeSet st k a) k b = storeSet st k b := by
  induction st with
  | nil => simp [storeSet]
  | cons p r ih =>
    obtain ⟨k2, v⟩ := p
    by_cases h : k2 = k <;> simp [storeSet, h, ih]

theorem storeGet_none_notMem (st : Store) (k : String)
    (h : storeGet st k = none) : ∀ p ∈ st, p.1 ≠ k := by
  induction st with
  | nil => simp
  | cons q r ih =>
    obtain ⟨k2, v⟩ := q
    intro p hp
    by_cases hk : k2 = k
    · simp [storeGet, hk] at h
    · simp [storeGet, hk] at h
      rcases List.mem_cons.mp hp with hp | hp
      · subst hp
        exact hk
      · exact ih h p hp

theorem storeSet_of_none (st : Store) (k : String) (s : Session)
    (h : storeGet st k = none) : storeSet st k s = st ++ [(k, s)] := by
  induction st with
  | nil => simp [storeSet]
  | cons q r ih =>
    obtain ⟨k2, v⟩ := q
    by_cases hk : k2 = k
    · simp [storeGet, hk] at h
    · simp [storeGet, hk] at h
      simp [storeSet, hk, ih h]

theorem dictGet_mem (l : List (String × JValue)) (k : String) (v : JValue)
    (h : dictGet l k = some v) : (k, v) ∈ l := by
  induction l with
  | nil => simp [dictGet] at h
  | cons q r ih =>
    obtain ⟨k2, v2⟩ := q
    by_cases hk : k2 = k
    · subst hk
      simp [dictGet] at h
      simp [h]
    · simp [dictGet, hk] at h
      exact List.mem_cons_of_mem _ (ih h)

theorem normField_eq_pyNorm (o : Option JValue)
    (h : ∀ v, o = some v → strOrFalsy v = true) :
    normField o = Except.ok (pyNorm o) := by
  cases o with
  | none => rfl
  | some v =>
    have hv := h v rfl
    cases v with
    | str s =>
      by_cases hs : s = ""
      · subst hs
        simp [normField, truthy, pyNorm, show pyStrip "" = "" from rfl]
      · simp [normField, truthy, hs, pyNorm]
    | null => rfl
    | bool b =>
      cases b with
      | false => rfl
      | true => simp [strOrFalsy, truthy] at hv
    | num n =>
      by_cases hn : n = 0
      · subst hn
        simp [normField, truthy, pyNorm]
      · simp [strOrFalsy, truthy, hn] at hv
    | arr xs =>
      cases xs with
      | nil => rfl
      | cons x r => simp [strOrFalsy, truthy] at hv
    | obj fs =>
      cases fs with
      | nil => rfl
      | cons f r => simp [strOrFalsy, truthy] at hv

/-! ## Claim theorems -/

/-- C6: for every clientOverride and meta, the built system prompt is
the trimmed override when present and nonempty after trimming (else the
fixed default template), followed — when a nonempty trimmed userName or
cohortId exists — by a blank line and one line per extra in
(name, cohort) order.  Purity and determinism hold because
`build_system_prompt` is a function of exactly these two inputs. -/
theorem build_prompt_matches_spec (o : Option String) (m : Meta) :
    build_system_prompt o m = buildPromptSpec o m := by
  have hbase : (if pyStrip (o.getD "") = "" then BASE_SYSTEM_PROMPT
      else pyStrip (o.getD "")) = specBase o := by
    cases o with
    | none => simp [specBase, show pyStrip "" = "" from rfl]
    | some s => rfl
  show (if specExtras m ≠ [] then
      pyRstrip (if pyStrip (o.getD "") = "" then BASE_SYSTEM_PROMPT
        else pyStrip (o.getD "")) ++ "\n\n" ++ String.intercalate "\n" (specExtras m)
    else (if pyStrip (o.getD "") = "" then BASE_SYSTEM_PROMPT
      else pyStrip (o.getD ""))) = buildPromptSpec o m
  rw [hbase]
  unfold buildPromptSpec
  by_cases he : specExtras m = []
  · simp [he]
  · simp [he, pyRstrip_specBase]

/-- C9: token extraction yields a token exactly for a one-part header
(that part) or a two-part header whose first part is case-insensitively
"bearer" (the second part); otherwise — absent or empty header, three
or more parts, two parts not led by bearer — no token is extracted and
both chat and reset answer 401. -/
theorem extract_token_matches_spec (auth_header : Option String) :
    extract_token auth_header = specExtract auth_header ∧
    (specExtract auth_header = none →
      ∀ (store : Store) (is_json : Bool) (data : List (String × JValue))
        (gw : Option String),
        (chat store auth_header is_json data gw).status = 401 ∧
        (reset_session store auth_header).status = 401) := by
  have hmain : extract_token auth_header = specExtract auth_header := by
    cases auth_header with
    | none => rfl
    | some h =>
      by_cases hh : h = ""
      · subst hh
        rfl
      · simp [extract_token, specExtract, hh]
  refine ⟨hmain, fun hnone store is_json data gw => ?_⟩
  have hx : extract_token auth_header = none := hmain.trans hnone
  constructor
  · unfold chat
    rw [hx]
  · unfold reset_session
    rw [hx]

/-- Witness for C9: a three-part header extracts no token and gets 401
from both chat and reset. -/
theorem extract_token_matches_spec_witness :
    specExtract (some "x y z") = none ∧
    (chat [] (some "x y z") true [] none).status = 401 ∧
    (reset_session [] (some "x y z")).status = 401 :=
  ⟨by decide,
    ((extract_token_matches_spec (some "x y z")).2 (by decide) [] true [] none).1,
    ((extract_token_matches_spec (some "x y z")).2 (by decide) [] true [] none).2⟩

/-- C3: a chat request whose Authorization header yields no token, or a
token absent from the session store, gets a 401 response and leaves the
store exactly as it was. -/
theorem chat_unknown_token (store : Store) (auth_header : Option String)
    (is_json : Bool) (data : List (String × JValue)) (gw : Option String)
    (h : ∀ t, extract_token auth_header = some t → storeGet store t = none) :
    chat store auth_header is_json data gw =
      ⟨401, none, some "Invalid session token", store, false⟩ := by
  unfold chat
  cases he : extract_token auth_header with
  | none => rfl
  | some t => simp only [h t he]

/-- Witness for C3: a token that is not in the (empty) store. -/
theorem chat_unknown_token_witness :
    chat [] (some "deadbeef") true [("message", JValue.str "hi")] (some "r") =
      ⟨401, none, some "Invalid session token", [], false⟩ :=
  chat_unknown_token [] (some "deadbeef") true [("message", JValue.str "hi")]
    (some "r") (fun _ _ => rfl)

/-- C4: with a valid token but a missing, empty, or non-string message
(or a non-JSON body), chat answers 400, does not invoke the completion
gateway, and leaves the store unchanged. -/
theorem chat_invalid_message (store : Store) (auth_header : Option String)
    (is_json : Bool) (data : List (String × JValue)) (gw : Option String)
    (token : String) (sess : Session)
    (htok : extract_token auth_header = some token)
    (hsess : storeGet store token = some sess)
    (hbad : is_json = false ∨ msgValid (dictGet data "message") = false) :
    (chat store auth_header is_json data gw).status = 400 ∧
    (chat store auth_header is_json data gw).store = store ∧
    (chat store auth_header is_json data gw).gatewayCalled = false := by
  simp only [chat, htok, hsess]
  rcases hbad with hb | hb
  · subst hb
    simp
  · cases hj : is_json with
    | false => simp
    | true =>
      simp only [if_neg (by simp : ¬(true = false))]
      cases hm : dictGet data "message" with
      | none => simp
      | some v =>
        cases v with
        | str s =>
          rw [hm] at hb
          simp only [msgValid, bne_eq_false_iff_eq] at hb
          simp [hb]
        | null => simp
        | bool b => simp
        | num n => simp
        | arr xs => simp
        | obj fs => simp

/-- Witness for C4: a numeric message on a live session. -/
theorem chat_invalid_message_witness :
    (chat store0 (some "tok") true [("message", JValue.num 3)] (some "r")).status = 400 ∧
    (chat store0 (some "tok") true [("message", JValue.num 3)] (some "r")).store = store0 ∧
    (chat store0 (some "tok") true [("message", JValue.num 3)] (some "r")).gatewayCalled = false :=
  chat_invalid_message store0 (some "tok") true [("message", JValue.num 3)]
    (some "r") "tok" sess0 rfl rfl (Or.inr rfl)

/-- C2: with a valid token, a valid message and convertible parameters,
a gateway failure yields a 500 response and leaves the user turn (after
any context turn) appended to the session history with no assistant
turn following it. -/
theorem chat_gateway_failure (store : Store) (auth_header : Option String)
    (data : List (String × JValue)) (token : String) (sess : Session) (s : String)
    (htok : extract_token auth_header = some token)
    (hsess : storeGet store token = some sess)
    (hmsg : dictGet data "message" = some (JValue.str s)) (hs : s ≠ "")
    (htemp : pyFloatOk ((dictGet data "temperature").getD
      (JValue.num sess.default_temperature)) = true)
    (hmct : pyIntOk ((dictGet data "max_completion_tokens").getD
      (JValue.num sess.default_max_completion_tokens)) = true) :
    chat store auth_header true data none =
      ⟨500, none, some "Sorry, I encountered an error.",
        storeSet store token
          { sess with messages := sess.messages ++ contextTurns data ++ [⟨"user", s⟩] },
        true⟩ := by
  simp [chat, chatCore, htok, hsess, hmsg, hs, htemp, hmct]

/-- Witness for C2: gateway failure on a live session. -/
theorem chat_gateway_failure_witness :
    chat store0 (some "tok") true [("message", JValue.str "hi")] none =
      ⟨500, none, some "Sorry, I encountered an error.",
        storeSet store0 "tok"
          { sess0 with messages := sess0.messages ++
              contextTurns [("message", JValue.str "hi")] ++ [⟨"user", "hi"⟩] },
        true⟩ :=
  chat_gateway_failure store0 (some "tok") [("message", JValue.str "hi")]
    "tok" sess0 "hi" rfl rfl rfl (by decide) rfl rfl

/-- C10: with a valid token and valid message but a `temperature` or
`max_completion_tokens` value on which the Python conversion raises,
chat answers with the generic 500 upstream-failure response (not a 400),
never reaches the gateway, and the user turn (after any context turn)
stays appended to the history. -/
theorem chat_unconvertible_params (store : Store) (auth_header : Option String)
    (data : List (String × JValue)) (gw : Option String)
    (token : String) (sess : Session) (s : String)
    (htok : extract_token auth_header = some token)
    (hsess : storeGet store token = some sess)
    (hmsg : dictGet data "message" = some (JValue.str s)) (hs : s ≠ "")
    (hbad : pyFloatOk ((dictGet data "temperature").getD
        (JValue.num sess.default_temperature)) = false ∨
      pyIntOk ((dictGet data "max_completion_tokens").getD
        (JValue.num sess.default_max_completion_tokens)) = false) :
    chat store auth_header true data gw =
      ⟨500, none, some "Sorry, I encountered an error.",
        storeSet store token
          { sess with messages := sess.messages ++ contextTurns data ++ [⟨"user", s⟩] },
        false⟩ := by
  rcases hbad with hb | hb
  · simp [chat, chatCore, htok, hsess, hmsg, hs, hb]
  · by_cases hf : pyFloatOk ((dictGet data "temperature").getD
        (JValue.num sess.default_temperature))
    · simp [chat, chatCore, htok, hsess, hmsg, hs, hf, hb]
    · simp [chat, chatCore, htok, hsess, hmsg, hs, hf]

/-- Witness for C10: a non-numeric temperature string. -/
theorem chat_unconvertible_params_witness :
    chat store0 (some "tok") true
      [("message", JValue.str "hi"), ("temperature", JValue.str "abc")] (some "r") =
      ⟨500, none, some "Sorry, I encountered an error.",
        storeSet store0 "tok"
          { sess0 with messages := sess0.messages ++
              contextTurns [("message", JValue.str "hi"), ("temperature", JValue.str "abc")] ++
              [⟨"user", "hi"⟩] },
        false⟩ :=
  chat_unconvertible_params store0 (some "tok")
    [("message", JValue.str "hi"), ("temperature", JValue.str "abc")] (some "r")
    "tok" sess0 "hi" rfl rfl rfl (by decide) (Or.inl (by decide))

/-- C8: reset with a valid token rebuilds the system prompt from the
stored meta (including the stored override) and truncates the history
to exactly that one system turn; meta, model and the numeric defaults
are untouched. -/
theorem reset_valid_token (store : Store) (auth_header : Option String)
    (token : String) (sess : Session)
    (htok : extract_token auth_header = some token)
    (hsess : storeGet store token = some sess) :
    reset_session store auth_header =
      ⟨200, true, none, storeSet store token
        { sess with messages :=
            [⟨"system", build_system_prompt sess.meta.systemPrompt sess.meta⟩] }⟩ ∧
    storeGet (reset_session store auth_header).store token =
      some { sess with messages :=
        [⟨"system", build_system_prompt sess.meta.systemPrompt sess.meta⟩] } := by
  have h1 : reset_session store auth_header =
      ⟨200, true, none, storeSet store token
        { sess with messages :=
            [⟨"system", build_system_prompt sess.meta.systemPrompt sess.meta⟩] }⟩ := by
    simp [reset_session, htok, hsess]
  refine ⟨h1, ?_⟩
  rw [h1]
  exact storeGet_storeSet_self store token _

/-- Witness for C8: resetting a session with prior history and a stored
prompt override. -/
theorem reset_valid_token_witness :
    reset_session storeH (some "tok") =
      ⟨200, true, none, storeSet storeH "tok"
        { sessH with messages :=
            [⟨"system", build_system_prompt sessH.meta.systemPrompt sessH.meta⟩] }⟩ ∧
    storeGet (reset_session storeH (some "tok")).store "tok" =
      some { sessH with messages :=
        [⟨"system", build_system_prompt sessH.meta.systemPrompt sessH.meta⟩] } :=
  reset_valid_token storeH (some "tok") "tok" sessH rfl rfl

/-- C5 counterexample: a `context` value that is present but empty (and
therefore falsy) injects no context system turn at all — the call
succeeds and the history gains only the user and assistant turns, so a
present context value is not always recorded. -/
theorem chat_empty_context_dropped :
    dictGet [("message", JValue.str "hello"), ("context", JValue.str "")] "context" =
      some (JValue.str "") ∧
    chat store0 (some "tok") true
      [("message", JValue.str "hello"), ("context", JValue.str "")] (some "reply") =
      ⟨200, some "reply", none,
        [("tok", { sess0 with messages :=
          [⟨"system", "p"⟩, ⟨"user", "hello"⟩, ⟨"assistant", "reply"⟩] })], true⟩ ∧
    (⟨"system", "Context for this turn: " ++ pyStr (JValue.str "")⟩ : Turn) ∉
      [(⟨"system", "p"⟩ : Turn), ⟨"user", "hello"⟩, ⟨"assistant", "reply"⟩] :=
  ⟨rfl, rfl, by decide⟩

/-- C5 amended: for every chat call with a valid token, a valid message
and a present truthy `context` value, a system turn carrying that
context is appended immediately before the user turn and remains in the
session history after the call returns, whatever the gateway outcome. -/
theorem chat_truthy_context_recorded (store : Store) (auth_header : Option String)
    (data : List (String × JValue)) (gw : Option String)
    (token : String) (sess : Session) (s : String) (c : JValue)
    (htok : extract_token auth_header = some token)
    (hsess : storeGet store token = some sess)
    (hmsg : dictGet data "message" = some (JValue.str s)) (hs : s ≠ "")
    (hctx : dictGet data "context" = some c) (hc : truthy c = true) :
    ∃ rest,
      storeGet (chat store auth_header true data gw).store token =
        some { sess with messages := sess.messages ++
          ⟨"system", "Context for this turn: " ++ pyStr c⟩ :: ⟨"user", s⟩ :: rest } ∧
      (rest = [] ∨ ∃ a, rest = [⟨"assistant", a⟩]) := by
  have hct : contextTurns data = [⟨"system", "Context for this turn: " ++ pyStr c⟩] := by
    simp [contextTurns, hctx, hc]
  simp only [chat, htok, hsess, hmsg]
  rw [if_neg (by simp : ¬(true = false)), if_neg hs]
  unfold chatCore
  by_cases hf : pyFloatOk ((dictGet data "temperature").getD
      (JValue.num sess.default_temperature))
  · by_cases hi : pyIntOk ((dictGet data "max_completion_tokens").getD
        (JValue.num sess.default_max_completion_tokens))
    · cases gw with
      | none =>
        refine ⟨[], ?_, Or.inl rfl⟩
        simp only [hf, hi, if_true]
        simp [storeGet_storeSet_self, hct]
      | some txt =>
        refine ⟨[⟨"assistant", txt⟩], ?_, Or.inr ⟨txt, rfl⟩⟩
        simp only [hf, hi, if_true]
        simp [storeSet_storeSet, storeGet_storeSet_self, hct]
    · refine ⟨[], ?_, Or.inl rfl⟩
      simp only [hf, hi]
      simp [storeGet_storeSet_self, hct]
  · refine ⟨[], ?_, Or.inl rfl⟩
    simp only [hf]
    simp [storeGet_storeSet_self, hct]

/-- Witness for C5 amended: a nonempty context string is recorded
before the user turn on a live session. -/
theorem chat_truthy_context_recorded_witness :
    ∃ rest,
      storeGet (chat store0 (some "tok") true
        [("message", JValue.str "hi"), ("context", JValue.str "note")] (some "ok")).store "tok" =
        some { sess0 with messages := sess0.messages ++
          ⟨"system", "Context for this turn: " ++ pyStr (JValue.str "note")⟩ ::
            ⟨"user", "hi"⟩ :: rest } ∧
      (rest = [] ∨ ∃ a, rest = [⟨"assistant", a⟩]) :=
  chat_truthy_context_recorded store0 (some "tok")
    [("message", JValue.str "hi"), ("context", JValue.str "note")] (some "ok")
    "tok" sess0 "hi" (JValue.str "note") rfl rfl rfl (by decide) rfl rfl

/-- C7 counterexample: a start request whose `userName` is a truthy
non-string (the number 1) raises inside the handler — Python has no
`.strip` on an int — so not every start request succeeds. -/
theorem start_nonstring_field_raises :
    start_session [("userName", JValue.num 1)] "t" "m" 0 512 [] = Except.error () := rfl

/-- C7 amended: every start request whose provided payload values are
strings or falsy succeeds: empty/whitespace-only fields are normalized
to absent, a default initialMessage is supplied when none is given, the
created session holds exactly one (system) turn, the response carries
the token and initialMessage, and when the freshly drawn token is new
to the store (the CSPRNG guarantee) it differs from every stored token
and the store is extended by the new entry. -/
theorem start_normalizes_and_creates (payload : List (String × JValue))
    (token : String) (model : String) (dtemp dmct : Int) (store : Store)
    (h : ∀ p ∈ payload, strOrFalsy p.2 = true) :
    ∃ m : Meta,
      m.userName = pyNorm (dictGet payload "userName") ∧
      m.cohortId = pyNorm (dictGet payload "cohortId") ∧
      m.systemPrompt = pyNorm (dictGet payload "systemPrompt") ∧
      m.initialMessage =
        (pyNorm (dictGet payload "initialMessage")).getD DEFAULT_INITIAL_MESSAGE ∧
      start_session payload token model dtemp dmct store =
        Except.ok (⟨token, m.initialMessage⟩,
          storeSet store token
            ⟨[⟨"system", build_system_prompt m.systemPrompt m⟩], m, model, dtemp, dmct⟩) ∧
      (storeGet store token = none →
        (∀ p ∈ store, p.1 ≠ token) ∧
        storeSet store token
            ⟨[⟨"system", build_system_prompt m.systemPrompt m⟩], m, model, dtemp, dmct⟩ =
          store ++ [(token,
            ⟨[⟨"system", build_system_prompt m.systemPrompt m⟩], m, model, dtemp, dmct⟩)]) := by
  have h1 : normField (dictGet payload "userName") =
      Except.ok (pyNorm (dictGet payload "userName")) :=
    normField_eq_pyNorm _ (fun v hv => h _ (dictGet_mem _ _ _ hv))
  have h2 : normField (dictGet payload "cohortId") =
      Except.ok (pyNorm (dictGet payload "cohortId")) :=
    normField_eq_pyNorm _ (fun v hv => h _ (dictGet_mem _ _ _ hv))
  have h3 : normField (dictGet payload "systemPrompt") =
      Except.ok (pyNorm (dictGet payload "systemPrompt")) :=
    normField_eq_pyNorm _ (fun v hv => h _ (dictGet_mem _ _ _ hv))
  have h4 : normField (dictGet payload "initialMessage") =
      Except.ok (pyNorm (dictGet payload "initialMessage")) :=
    normField_eq_pyNorm _ (fun v hv => h _ (dictGet_mem _ _ _ hv))
  refine ⟨⟨pyNorm (dictGet payload "userName"), pyNorm (dictGet payload "cohortId"),
    pyNorm (dictGet payload "systemPrompt"),
    (pyNorm (dictGet payload "initialMessage")).getD DEFAULT_INITIAL_MESSAGE⟩,
    rfl, rfl, rfl, rfl, ?_, ?_⟩
  · simp only [start_session, h1, h2, h3, h4]
    rfl
  · intro hnone
    exact ⟨storeGet_none_notMem store token hnone, storeSet_of_none store token _ hnone⟩

/-- Witness for C7 amended: a start request with a name to strip, a
blank override, and no initialMessage, on a store not holding the drawn
token. -/
theorem start_normalizes_and_creates_witness :
    (∀ p ∈ [("userName", JValue.str "  Sam "), ("systemPrompt", JValue.str " ")],
      strOrFalsy (Prod.snd p) = true) ∧
    ∃ m : Meta,
      m.userName = pyNorm (dictGet [("userName", JValue.str "  Sam "),
        ("systemPrompt", JValue.str " ")] "userName") ∧
      m.cohortId = pyNorm (dictGet [("userName", JValue.str "  Sam "),
        ("systemPrompt", JValue.str " ")] "cohortId") ∧
      m.systemPrompt = pyNorm (dictGet [("userName", JValue.str "  Sam "),
        ("systemPrompt", JValue.str " ")] "systemPrompt") ∧
      m.initialMessage = (pyNorm (dictGet [("userName", JValue.str "  Sam "),
        ("systemPrompt", JValue.str " ")] "initialMessage")).getD DEFAULT_INITIAL_MESSAGE ∧
      start_session [("userName", JValue.str "  Sam "), ("systemPrompt", JValue.str " ")]
          "t" "m" 0 512 store0 =
        Except.ok (⟨"t", m.initialMessage⟩,
          storeSet store0 "t"
            ⟨[⟨"system", build_system_prompt m.systemPrompt m⟩], m, "m", 0, 512⟩) ∧
      (storeGet store0 "t" = none →
        (∀ p ∈ store0, p.1 ≠ "t") ∧
        storeSet store0 "t"
            ⟨[⟨"system", build_system_prompt m.systemPrompt m⟩], m, "m", 0, 512⟩ =
          store0 ++ [("t",
            ⟨[⟨"system", build_system_prompt m.systemPrompt m⟩], m, "m", 0, 512⟩)]) :=
  ⟨by decide,
    start_normalizes_and_creates
      [("userName", JValue.str "  Sam "), ("systemPrompt", JValue.str " ")]
      "t" "m" 0 512 store0 (by decide)⟩

/-- A chat call satisfying `callOk` on a live session returns 200 and
appends exactly its user/assistant pair. -/
theorem chat_callOk_step (store : Store) (auth_header : Option String)
    (token : String) (sess : Session) (c : ChatCall)
    (htok : extract_token auth_header = some token)
    (hsess : storeGet store token = some sess)
    (hok : callOk sess.default_temperature sess.default_max_completion_tokens c = true) :
    chat store auth_header true c.data c.gw =
      ⟨200, some (gwStr c), none,
        storeSet store token { sess with messages := sess.messages ++ callPair c },
        true⟩ := by
  rw [callOk] at hok
  repeat rw [Bool.and_eq_true] at hok
  obtain ⟨⟨⟨⟨hmsg, hct⟩, hf⟩, hi⟩, hgw⟩ := hok
  have hctx : contextTurns c.data = [] := List.isEmpty_iff.mp hct
  cases hm : dictGet c.data "message" with
  | none => rw [hm] at hmsg; simp [msgValid] at hmsg
  | some v =>
    cases v with
    | str s =>
      rw [hm] at hmsg
      simp only [msgValid, bne_iff_ne, ne_eq] at hmsg
      cases hg : c.gw with
      | none => rw [hg] at hgw; simp at hgw
      | some txt =>
        have hms : msgStr c = s := by simp [msgStr, hm]
        have hgs : gwStr c = txt := by simp [gwStr, hg]
        simp only [chat, htok, hsess, hm]
        rw [if_neg (by simp : ¬(true = false)), if_neg hmsg]
        simp only [chatCore, hctx, hf, hi, if_true, hg]
        simp [storeSet_storeSet, callPair, hms, hgs]
    | null => rw [hm] at hmsg; simp [msgValid] at hmsg
    | bool b => rw [hm] at hmsg; simp [msgValid] at hmsg
    | num n => rw [hm] at hmsg; simp [msgValid] at hmsg
    | arr xs => rw [hm] at hmsg; simp [msgValid] at hmsg
    | obj fs => rw [hm] at hmsg; simp [msgValid] at hmsg

/-- Running a list of `callOk` chat calls returns 200 for each call and
appends exactly the user/assistant pairs, in call order. -/
theorem runChats_all_ok (auth_header : Option String) (token : String)
    (htok : extract_token auth_header = some token) :
    ∀ (calls : List ChatCall) (store : Store) (sess : Session),
      storeGet store token = some sess →
      (∀ c ∈ calls,
        callOk sess.default_temperature sess.default_max_completion_tokens c = true) →
      (runChats store auth_header calls).2 = List.replicate calls.length 200 ∧
      storeGet (runChats store auth_header calls).1 token =
        some { sess with messages := sess.messages ++ (calls.map callPair).flatten } := by
  intro calls
  induction calls with
  | nil =>
    intro store sess hsess hok
    simp [runChats, hsess]
  | cons c r ih =>
    intro store sess hsess hok
    have hstep := chat_callOk_step store auth_header token sess c htok hsess
      (hok c (List.mem_cons_self c r))
    have hsess1 : storeGet
        (storeSet store token { sess with messages := sess.messages ++ callPair c })
        token = some { sess with messages := sess.messages ++ callPair c } :=
      storeGet_storeSet_self store token _
    have hrest := ih
      (storeSet store token { sess with messages := sess.messages ++ callPair c })
      { sess with messages := sess.messages ++ callPair c } hsess1
      (fun c' hc' => hok c' (List.mem_cons_of_mem c hc'))
    simp only [runChats, hstep]
    refine ⟨?_, ?_⟩
    · simp [hrest.1, List.replicate_succ]
    · rw [hrest.2]
      simp [List.append_assoc]

/-- Each successful context-free call contributes exactly two turns. -/
theorem callPair_flatten_length (calls : List ChatCall) :
    ((calls.map callPair).flatten).length = 2 * calls.length := by
  induction calls with
  | nil => simp
  | cons c r ih =>
    rw [List.map_cons, List.flatten_cons, List.length_append, ih]
    simp [callPair]
    omega

/-- C1 amended: starting from a freshly created session (one system
turn), N successful chat calls none of which injects a context turn all
return 200 and leave the turn sequence as the system turn followed by
the N user/assistant pairs in call (insertion) order: 1 + 2N entries. -/
theorem chat_turn_count (store : Store) (auth_header : Option String)
    (token : String) (sess : Session) (sp : String) (calls : List ChatCall)
    (htok : extract_token auth_header = some token)
    (hsess : storeGet store token = some sess)
    (hfresh : sess.messages = [⟨"system", sp⟩])
    (hok : ∀ c ∈ calls,
      callOk sess.default_temperature sess.default_max_completion_tokens c = true) :
    (runChats store auth_header calls).2 = List.replicate calls.length 200 ∧
    storeGet (runChats store auth_header calls).1 token =
      some { sess with messages := ⟨"system", sp⟩ :: (calls.map callPair).flatten } ∧
    ((⟨"system", sp⟩ : Turn) :: (calls.map callPair).flatten).length =
      1 + 2 * calls.length := by
  obtain ⟨h1, h2⟩ := runChats_all_ok auth_header token htok calls store sess hsess hok
  refine ⟨h1, ?_, ?_⟩
  · rw [h2, hfresh]
    simp
  · rw [List.length_cons, callPair_flatten_length]
    omega

/-- Witness for C1 amended: one successful context-free call on a fresh
session leaves 1 + 2·1 turns. -/
theorem chat_turn_count_witness :
    (runChats store0 (some "tok") [⟨[("message", JValue.str "hi")], some "ok"⟩]).2 =
      List.replicate 1 200 ∧
    storeGet (runChats store0 (some "tok")
        [⟨[("message", JValue.str "hi")], some "ok"⟩]).1 "tok" =
      some { sess0 with messages := ⟨"system", "p"⟩ ::
        (([⟨[("message", JValue.str "hi")], some "ok"⟩] : List ChatCall).map callPair).flatten } ∧
    ((⟨"system", "p"⟩ : Turn) ::
        (([⟨[("message", JValue.str "hi")], some "ok"⟩] : List ChatCall).map callPair).flatten).length =
      1 + 2 * 1 :=
  chat_turn_count store0 (some "tok") "tok" sess0 "p"
    [⟨[("message", JValue.str "hi")], some "ok"⟩] rfl rfl rfl (by decide)

/-- C1 counterexample: one successful (200) chat call that carries a
context value appends three turns, so after N = 1 successful calls the
fresh session holds 4 ≠ 1 + 2·1 entries. -/
theorem chat_context_breaks_turn_count :
    (runChats store0 (some "tok")
      [⟨[("message", JValue.str "hi"), ("context", JValue.str "note")], some "ok"⟩]).2 =
      [200] ∧
    storeGet (runChats store0 (some "tok")
        [⟨[("message", JValue.str "hi"), ("context", JValue.str "note")], some "ok"⟩]).1
        "tok" =
      some { sess0 with messages :=
        [⟨"system", "p"⟩, ⟨"system", "Context for this turn: note"⟩,
          ⟨"user", "hi"⟩, ⟨"assistant", "ok"⟩] } ∧
    ([(⟨"system", "p"⟩ : Turn), ⟨"system", "Context for this turn: note"⟩,
        ⟨"user", "hi"⟩, ⟨"assistant", "ok"⟩] : List Turn).length ≠ 1 + 2 * 1 :=
  ⟨rfl, rfl, by decide⟩

end ChatProxy
